import Mathlib

/-!
Verification of the bonding-curve pricing engine
(`programs/pump-core/src/utils/bonding_curve.rs` and the sell path of
`programs/pump-core/src/instructions/trade.rs`).

Shallow embedding conventions:
* `u64` / `u128` values are naturals; every Rust `checked_*` operation is
  an explicit bound test against `U64MAX` / `U128MAX`; a Rust `as u64`
  narrowing cast is an explicit `% 2^64`; a Rust `as u128` widening cast
  is the identity.
* `i128` values are integers; `toI128` reinterprets a `u128` bit pattern
  as `i128`; saturating `i128` multiplication clamps into
  `[-(2^127), 2^127 - 1]`.
* Fallible functions return `Except CurveErr`; a Rust panic
  (division by zero, or an add that can only overflow at the single input
  where it occurs) is modelled by `Option.none` in `isqrt`.
-/

/-- Error codes used by the bonding-curve module and the trade pipeline
(from `errors.rs`, restricted to the codes these paths can produce). -/
inductive CurveErr where
  | InvalidAmount
  | InvalidInitialSupply
  | InvalidBondingCurveParams
  | InsufficientBalance
  | MathematicalOverflow
  | InvalidSlippageTolerance
  | SlippageExceeded
  | InsufficientLiquidity
  | InsufficientFunds
  | TradeCooldownActive
  | RateLimitExceeded
  | MathOverflow
  deriving DecidableEq, Repr

abbrev CResult (α : Type) := Except CurveErr α

/-- `PRECISION`: 10^9 fixed-point subunits. -/
def PRECISION : ℕ := 1000000000

/-- `MAX_SUPPLY`: hard supply cap from the source. -/
def MAX_SUPPLY : ℕ := 1000000000000000

/-- `MIN_PRICE`: 1 lamport. -/
def MIN_PRICE : ℕ := 1

/-- Largest `u64` value. -/
def U64MAX : ℕ := 2 ^ 64 - 1

/-- Largest `u128` value. -/
def U128MAX : ℕ := 2 ^ 128 - 1

/-- Largest `i128` value. -/
def I128MAX : ℕ := 2 ^ 127 - 1

/-- Result record of one curve computation (`CurveCalculation`). -/
structure CurveCalculation where
  token_amount : ℕ
  sol_amount : ℕ
  new_supply : ℕ
  price_per_token : ℕ
  price_impact : ℕ
  deriving DecidableEq, Repr

/-- The Rust `?` operator on `Result`: propagate an error, continue on `Ok`. -/
def andThen {beta alpha : Type} (x : CResult beta) (f : beta -> CResult alpha) : CResult alpha :=
  match x with
  | .error e => .error e
  | .ok v => f v

/-- Abort on `none` (the modelled panic inside `isqrt`), surfaced as the
transaction-aborting `MathematicalOverflow`. -/
def optStep {alpha : Type} (x : Option Nat) (f : Nat -> CResult alpha) : CResult alpha :=
  match x with
  | none => .error .MathematicalOverflow
  | some v => f v

/-- `calculate_price_impact(old_price, new_price)`: basis-point impact.
The quotient is cast `as u16` (here `% 65536`) before `.min(10000)`. -/
def calculate_price_impact (old_price new_price : ℕ) : CResult ℕ :=
  if old_price = 0 then .ok 10000
  else
    let price_diff := if old_price < new_price then new_price - old_price
      else old_price - new_price
    if price_diff * 10000 ≤ U64MAX then
      .ok (min ((price_diff * 10000 / old_price) % 65536) 10000)
    else .error .MathematicalOverflow

/-- The Newton iteration of `isqrt`: `while y < x { x = y; y = (x + n/x)/2 }`.
`none` models the division-by-zero panic `n / 0` that the Rust loop hits when
it is entered with `y = 0` (possible only from the wrapped `n + 1` at entry).
The first argument is a structural bound on the strictly decreasing `x`
(`isqrt` passes `x` itself); it never runs out: `x ≤ bound` is invariant, and
at bound `0` we have `x = 0`, where the guard `y < x` is false and the loop
returns `x` — exactly what the `bound + 1` case computes there.
The `u128` sum `x + n / x` cannot overflow for `n ≤ 2^128 - 2`: every iterate
`x` lies in `[√n, n]` where `x + n / x ≤ n + 1`. -/
def isqrt_go (n : ℕ) : ℕ → ℕ → ℕ → Option ℕ
  | 0, x, _ => some x
  | bound + 1, x, y =>
    if y < x then
      if y = 0 then none
      else isqrt_go n bound y ((y + n / y) / 2)
    else some x

/-- `isqrt(n)`: integer square root by Newton iteration, entered with
`x = n`, `y = (n + 1) / 2`.  The `u128` increment `n + 1` wraps at
`n = 2^128 - 1` (release build; a checked build panics right there),
which is the `% 2^128`. -/
def isqrt (n : ℕ) : Option ℕ :=
  if n = 0 then some 0
  else isqrt_go n n n ((n + 1) % 2 ^ 128 / 2)

/-- `integrate_linear(a, b, from, to)`: ∫ of `a + b·x` over `[from, to]`,
computed as `a·Δ + (b·from·Δ + b·Δ·Δ/2)` in checked `u128`, final `as u64`. -/
def integrate_linear (a b lo hi : ℕ) : CResult ℕ :=
  if hi < lo then .error .InvalidAmount
  else
    let delta := hi - lo
    if a * delta ≤ U128MAX then
      if b * lo ≤ U128MAX then
        if b * lo * delta ≤ U128MAX then
          if b * delta ≤ U128MAX then
            if b * delta * delta ≤ U128MAX then
              if b * lo * delta + b * delta * delta / 2 ≤ U128MAX then
                if a * delta + (b * lo * delta + b * delta * delta / 2) ≤ U128MAX then
                  .ok ((a * delta + (b * lo * delta + b * delta * delta / 2)) % 2 ^ 64)
                else .error .MathematicalOverflow
              else .error .MathematicalOverflow
            else .error .MathematicalOverflow
          else .error .MathematicalOverflow
        else .error .MathematicalOverflow
      else .error .MathematicalOverflow
    else .error .MathematicalOverflow

/-- Linear bonding curve `price = initial_price + slope * supply`. -/
structure LinearCurve where
  initial_price : ℕ
  slope : ℕ
  max_supply : ℕ
  deriving DecidableEq, Repr

/-- `LinearCurve::get_current_price`. -/
def LinearCurve.get_current_price (c : LinearCurve) (current_supply : ℕ) : CResult ℕ :=
  if c.slope * current_supply ≤ U64MAX then
    if c.initial_price + c.slope * current_supply ≤ U64MAX then
      .ok (max (c.initial_price + c.slope * current_supply) MIN_PRICE)
    else .error .MathematicalOverflow
  else .error .MathematicalOverflow

/-- `LinearCurve::get_market_cap`. -/
def LinearCurve.get_market_cap (c : LinearCurve) (current_supply : ℕ) : CResult ℕ :=
  andThen (c.get_current_price current_supply) fun price =>
    if current_supply * price ≤ U64MAX then .ok (current_supply * price)
    else .error .MathematicalOverflow

/-- `LinearCurve::calculate_buy`: solves `b/2·Δ² + (a + b·s)·Δ - SOL = 0`
through the checked `u128` discriminant
`a² + 2b·SOL + 2b·a·s + b²·s²` and `isqrt`; `delta_supply as u64` is the
`% 2^64`. -/
def LinearCurve.calculate_buy (c : LinearCurve) (sol_amount current_supply : ℕ) :
    CResult CurveCalculation :=
  if sol_amount = 0 then .error .InvalidAmount
  else if c.max_supply < current_supply then .error .InvalidInitialSupply
  else andThen (c.get_current_price current_supply) fun current_price =>
    let a := c.initial_price
    let b := c.slope
    let s := current_supply
    if a * a ≤ U128MAX then
      if b * 2 ≤ U128MAX then
        if b * 2 * sol_amount ≤ U128MAX then
          if a * a + b * 2 * sol_amount ≤ U128MAX then
            if b * 2 * a ≤ U128MAX then
              if b * 2 * a * s ≤ U128MAX then
                if a * a + b * 2 * sol_amount + b * 2 * a * s ≤ U128MAX then
                  if b * b ≤ U128MAX then
                    if b * b * s ≤ U128MAX then
                      if b * b * s * s ≤ U128MAX then
                        if a * a + b * 2 * sol_amount + b * 2 * a * s + b * b * s * s ≤ U128MAX then
                          let discriminant :=
                            a * a + b * 2 * sol_amount + b * 2 * a * s + b * b * s * s
                          optStep (isqrt discriminant) fun sqrt_discriminant =>
                            if sqrt_discriminant < a then .error .MathematicalOverflow
                            else if b * s ≤ U128MAX then
                              if sqrt_discriminant - a < b * s then .error .MathematicalOverflow
                              else if b = 0 then .error .MathematicalOverflow
                              else
                                let delta_supply := (sqrt_discriminant - a - b * s) / b
                                let token_amount := delta_supply % 2 ^ 64
                                if current_supply + token_amount ≤ U64MAX then
                                  if c.max_supply < current_supply + token_amount then
                                    .error .InvalidInitialSupply
                                  else andThen (c.get_current_price (current_supply + token_amount)) fun new_price =>
                                    andThen (calculate_price_impact current_price new_price) fun price_impact =>
                                      .ok ⟨token_amount, sol_amount,
                                        current_supply + token_amount, new_price, price_impact⟩
                                else .error .MathematicalOverflow
                            else .error .MathematicalOverflow
                        else .error .MathematicalOverflow
                      else .error .MathematicalOverflow
                    else .error .MathematicalOverflow
                  else .error .MathematicalOverflow
                else .error .MathematicalOverflow
              else .error .MathematicalOverflow
            else .error .MathematicalOverflow
          else .error .MathematicalOverflow
        else .error .MathematicalOverflow
      else .error .MathematicalOverflow
    else .error .MathematicalOverflow

/-- `LinearCurve::calculate_sell`. -/
def LinearCurve.calculate_sell (c : LinearCurve) (token_amount current_supply : ℕ) :
    CResult CurveCalculation :=
  if token_amount = 0 then .error .InvalidAmount
  else if current_supply < token_amount then .error .InsufficientBalance
  else
    let new_supply := current_supply - token_amount
    andThen (integrate_linear c.initial_price c.slope new_supply current_supply) fun sol_amount =>
      andThen (c.get_current_price current_supply) fun current_price =>
        andThen (c.get_current_price new_supply) fun new_price =>
          andThen (calculate_price_impact current_price new_price) fun price_impact =>
            .ok ⟨token_amount, sol_amount, new_supply, new_price, price_impact⟩

/-- Exponential bonding curve `price = base_price * e^(growth_factor * supply / PRECISION)`. -/
structure ExponentialCurve where
  base_price : ℕ
  growth_factor : ℕ
  max_supply : ℕ
  deriving DecidableEq, Repr

/-- `ExponentialCurve::get_current_price`: truncated-Taylor approximation with
a branch switch at `exponent = 1000` (quadratic form below, `1 + 2x` form
at or above). -/
def ExponentialCurve.get_current_price (c : ExponentialCurve) (current_supply : ℕ) :
    CResult ℕ :=
  if c.growth_factor * current_supply ≤ U64MAX then
    let exponent := c.growth_factor * current_supply / PRECISION
    let exp_approx :=
      if exponent < 1000 then
        PRECISION + exponent +
          (if exponent * exponent ≤ U64MAX then exponent * exponent / 2 else 0)
      else
        PRECISION + (if exponent * 2 ≤ U64MAX then exponent * 2 else U64MAX)
    if c.base_price * exp_approx ≤ U64MAX then
      .ok (max (c.base_price * exp_approx / PRECISION) MIN_PRICE)
    else .error .MathematicalOverflow
  else .error .MathematicalOverflow

/-- `ExponentialCurve::get_market_cap`. -/
def ExponentialCurve.get_market_cap (c : ExponentialCurve) (current_supply : ℕ) : CResult ℕ :=
  andThen (c.get_current_price current_supply) fun price =>
    if current_supply * price ≤ U64MAX then .ok (current_supply * price)
    else .error .MathematicalOverflow

/-- `ExponentialCurve::calculate_buy`:
`token_amount = sol_amount * PRECISION / average_price` with
`average_price = current_price * (1 + growth_rate/2)`, all in checked `u64`. -/
def ExponentialCurve.calculate_buy (c : ExponentialCurve) (sol_amount current_supply : ℕ) :
    CResult CurveCalculation :=
  if sol_amount = 0 then .error .InvalidAmount
  else if c.max_supply < current_supply then .error .InvalidInitialSupply
  else andThen (c.get_current_price current_supply) fun current_price =>
    if c.growth_factor * sol_amount ≤ U64MAX then
      let growth_rate := c.growth_factor * sol_amount / PRECISION
      if current_price * growth_rate ≤ U64MAX then
        if current_price + current_price * growth_rate / 2 ≤ U64MAX then
          let average_price := current_price + current_price * growth_rate / 2
          if sol_amount * PRECISION ≤ U64MAX then
            if average_price = 0 then .error .MathematicalOverflow
            else
              let token_amount := sol_amount * PRECISION / average_price
              if current_supply + token_amount ≤ U64MAX then
                if c.max_supply < current_supply + token_amount then
                  .error .InvalidInitialSupply
                else andThen (c.get_current_price (current_supply + token_amount)) fun new_price =>
                  andThen (calculate_price_impact current_price new_price) fun price_impact =>
                    .ok ⟨token_amount, sol_amount, current_supply + token_amount,
                      new_price, price_impact⟩
              else .error .MathematicalOverflow
          else .error .MathematicalOverflow
        else .error .MathematicalOverflow
      else .error .MathematicalOverflow
    else .error .MathematicalOverflow

/-- `ExponentialCurve::calculate_sell`:
`sol_amount = token_amount * average_price` in checked `u64`
(no `PRECISION` division, unlike the buy path). -/
def ExponentialCurve.calculate_sell (c : ExponentialCurve) (token_amount current_supply : ℕ) :
    CResult CurveCalculation :=
  if token_amount = 0 then .error .InvalidAmount
  else if current_supply < token_amount then .error .InsufficientBalance
  else
    let new_supply := current_supply - token_amount
    andThen (c.get_current_price current_supply) fun current_price =>
      andThen (c.get_current_price new_supply) fun new_price =>
        if current_price + new_price ≤ U64MAX then
          let average_price := (current_price + new_price) / 2
          if token_amount * average_price ≤ U64MAX then
            andThen (calculate_price_impact current_price new_price) fun price_impact =>
              .ok ⟨token_amount, token_amount * average_price, new_supply,
                new_price, price_impact⟩
          else .error .MathematicalOverflow
        else .error .MathematicalOverflow

/-- Constant-product AMM curve `sol_reserve * token_reserve = k`. -/
structure ConstantProductCurve where
  sol_reserve : ℕ
  token_reserve : ℕ
  deriving DecidableEq, Repr

/-- `ConstantProductCurve::get_k` (saturating `u128` multiplication). -/
def ConstantProductCurve.get_k (c : ConstantProductCurve) : ℕ :=
  min (c.sol_reserve * c.token_reserve) U128MAX

/-- `ConstantProductCurve::get_current_price`:
`sol_reserve * PRECISION / token_reserve`, `as u64`, floored at `MIN_PRICE`. -/
def ConstantProductCurve.get_current_price (c : ConstantProductCurve) (_current_supply : ℕ) :
    CResult ℕ :=
  if c.sol_reserve * PRECISION ≤ U128MAX then
    if c.token_reserve = 0 then .error .MathematicalOverflow
    else .ok (max (c.sol_reserve * PRECISION / c.token_reserve % 2 ^ 64) MIN_PRICE)
  else .error .MathematicalOverflow

/-- `ConstantProductCurve::get_market_cap`: `token_reserve * price`
(the supply argument is unused). -/
def ConstantProductCurve.get_market_cap (c : ConstantProductCurve) (_current_supply : ℕ) :
    CResult ℕ :=
  andThen (c.get_current_price 0) fun price =>
    if c.token_reserve * price ≤ U64MAX then .ok (c.token_reserve * price)
    else .error .MathematicalOverflow

/-- `ConstantProductCurve::calculate_buy`: exact AMM formula
`tokens_out = token_reserve - k / (sol_reserve + sol_amount)`;
`new_supply` is the new token reserve (`as u64`). -/
def ConstantProductCurve.calculate_buy (c : ConstantProductCurve)
    (sol_amount _current_supply : ℕ) : CResult CurveCalculation :=
  if sol_amount = 0 then .error .InvalidAmount
  else
    let k := c.get_k
    if c.sol_reserve + sol_amount ≤ U128MAX then
      let new_sol_reserve := c.sol_reserve + sol_amount
      if new_sol_reserve = 0 then .error .MathematicalOverflow
      else
        let new_token_reserve := k / new_sol_reserve
        if c.token_reserve < new_token_reserve then .error .InsufficientBalance
        else
          let tokens_out := c.token_reserve - new_token_reserve
          if tokens_out = 0 then .error .InvalidAmount
          else if c.token_reserve < tokens_out then .error .InsufficientBalance
          else andThen (c.get_current_price 0) fun old_price =>
            if new_sol_reserve * PRECISION ≤ U128MAX then
              if new_token_reserve = 0 then .error .MathematicalOverflow
              else
                let new_price :=
                  max (new_sol_reserve * PRECISION / new_token_reserve % 2 ^ 64) MIN_PRICE
                andThen (calculate_price_impact old_price new_price) fun price_impact =>
                  .ok ⟨tokens_out, sol_amount, new_token_reserve % 2 ^ 64,
                    new_price, price_impact⟩
            else .error .MathematicalOverflow
    else .error .MathematicalOverflow

/-- `ConstantProductCurve::calculate_sell`: `sol_out = sol_reserve - k /
(token_reserve + token_amount)`; note the balance check is against
`token_reserve`, not against the (unused) supply argument. -/
def ConstantProductCurve.calculate_sell (c : ConstantProductCurve)
    (token_amount _current_supply : ℕ) : CResult CurveCalculation :=
  if token_amount = 0 then .error .InvalidAmount
  else if c.token_reserve ≤ token_amount then .error .InsufficientBalance
  else
    let k := c.get_k
    if c.token_reserve + token_amount ≤ U128MAX then
      let new_token_reserve := c.token_reserve + token_amount
      if new_token_reserve = 0 then .error .MathematicalOverflow
      else
        let new_sol_reserve := k / new_token_reserve
        if c.sol_reserve < new_sol_reserve then .error .InsufficientBalance
        else
          let sol_out := c.sol_reserve - new_sol_reserve
          if sol_out = 0 then .error .InvalidAmount
          else if c.sol_reserve < sol_out then .error .InsufficientBalance
          else andThen (c.get_current_price 0) fun old_price =>
            if new_sol_reserve * PRECISION ≤ U128MAX then
              let new_price :=
                max (new_sol_reserve * PRECISION / new_token_reserve % 2 ^ 64) MIN_PRICE
              andThen (calculate_price_impact old_price new_price) fun price_impact =>
                .ok ⟨token_amount, sol_out, new_token_reserve % 2 ^ 64,
                  new_price, price_impact⟩
            else .error .MathematicalOverflow
    else .error .MathematicalOverflow

/-- Reinterpret a `u128` bit pattern as `i128`. -/
def toI128 (w : ℕ) : ℤ :=
  if w < 2 ^ 127 then (w : ℤ) else (w : ℤ) - 2 ^ 128

/-- Saturating `i128` multiplication. -/
def satMulI128 (a b : ℤ) : ℤ :=
  max (-(2 ^ 127)) (min (a * b) (2 ^ 127 - 1))

/-- Sigmoid curve `price = min + (max - min) / (1 + e^(-k(x - x0)))`. -/
structure SigmoidCurve where
  min_price : ℕ
  max_price : ℕ
  steepness : ℕ
  midpoint : ℕ
  max_supply : ℕ
  deriving DecidableEq, Repr

/-- The positive branch of `SigmoidCurve::exp_approximation`: four-term
Taylor series in saturating `u128` arithmetic. -/
def sigmoid_exp_taylor (x : ℕ) : ℕ :=
  let r1 := min (PRECISION + x) U128MAX
  let t2 := min (x * x) U128MAX / (PRECISION * 2)
  let r2 := min (r1 + t2) U128MAX
  let t3 := min (t2 * x) U128MAX / (PRECISION * 3)
  let r3 := min (r2 + t3) U128MAX
  let t4 := min (t3 * x) U128MAX / (PRECISION * 4)
  min (r3 + t4) U128MAX

/-- `SigmoidCurve::exp_approximation(x)`: clamps `x` to `[-10·P, 10·P]`;
negative arguments go through `PRECISION² / e^(-x)` (`unwrap_or(1)` on the
division). -/
def SigmoidCurve.exp_approximation (x : ℤ) : ℕ :=
  let x_clamped := max (-(10 * (PRECISION : ℤ))) (min x (10 * (PRECISION : ℤ)))
  if x_clamped = 0 then PRECISION
  else if x_clamped < 0 then
    let pos_exp := sigmoid_exp_taylor (Int.toNat (-x_clamped))
    if pos_exp = 0 then 1 else PRECISION ^ 2 / pos_exp
  else sigmoid_exp_taylor (Int.toNat x_clamped)

/-- `SigmoidCurve::get_current_price`.  The signed `i128` product
`steepness * (supply - midpoint)` and its truncating division by
`PRECISION` are expressed by the sign split below (Rust `/` on `i128`
truncates toward zero, so `(-m) / P = -(m / P)`); the final value is
`clamp(min_price, max_price)` (as `max min (min v max)`, the Rust clamp
for `min ≤ max`; the constructor requires `min < max`). -/
def SigmoidCurve.get_current_price (c : SigmoidCurve) (current_supply : ℕ) : CResult ℕ :=
  let price_range := c.max_price - c.min_price
  let diff_mag := if c.midpoint ≤ current_supply then current_supply - c.midpoint
    else c.midpoint - current_supply
  if c.steepness * diff_mag ≤ I128MAX then
    let mag := c.steepness * diff_mag / PRECISION
    let exponent : ℤ := if c.midpoint ≤ current_supply then -(mag : ℤ) else (mag : ℤ)
    let exp_value := SigmoidCurve.exp_approximation exponent
    if PRECISION + exp_value ≤ U128MAX then
      let denominator := PRECISION + exp_value
      let price_addition := price_range * PRECISION / denominator % 2 ^ 64
      if c.min_price + price_addition ≤ U64MAX then
        .ok (max c.min_price (min (c.min_price + price_addition) c.max_price))
      else .error .MathematicalOverflow
    else .error .MathematicalOverflow
  else .error .MathematicalOverflow

/-- `SigmoidCurve::get_market_cap`. -/
def SigmoidCurve.get_market_cap (c : SigmoidCurve) (current_supply : ℕ) : CResult ℕ :=
  andThen (c.get_current_price current_supply) fun price =>
    if current_supply * price ≤ U64MAX then .ok (current_supply * price)
    else .error .MathematicalOverflow

/-- The stepping loop shared verbatim by `SigmoidCurve::calculate_buy` and
`LogarithmicCurve::calculate_buy`:
`while remaining_sol > 0 && supply < max_supply { ... }`, buying
`step = step_size.min(max_supply - supply)` tokens at the current price per
iteration, with a pro-rata final step when `cost > remaining_sol`.
Returns `(total_tokens, supply)` at loop exit.  `hss` records that both
callers pass `step_size = max (supply/100) 1000 ≥ 1000`, which is what makes
the Rust loop terminate. -/
def buy_step_loop (price_fn : ℕ → CResult ℕ) (max_supply step_size : ℕ)
    (hss : 0 < step_size) (remaining_sol total_tokens supply : ℕ) :
    CResult (ℕ × ℕ) :=
  if hloop : 0 < remaining_sol ∧ supply < max_supply then
    let step := min step_size (max_supply - supply)
    andThen (price_fn supply) fun price_at_step =>
      if step * price_at_step ≤ U128MAX then
        let cost := step * price_at_step
        if remaining_sol < cost then
          if remaining_sol * step ≤ U128MAX then
            if cost = 0 then .error .MathematicalOverflow
            else
              let part_tokens := remaining_sol * step / cost
              if total_tokens + part_tokens ≤ U64MAX then
                if supply + part_tokens ≤ U64MAX then
                  .ok (total_tokens + part_tokens, supply + part_tokens)
                else .error .MathematicalOverflow
              else .error .MathematicalOverflow
          else .error .MathematicalOverflow
        else
          if total_tokens + step ≤ U64MAX then
            if supply + step ≤ U64MAX then
              buy_step_loop price_fn max_supply step_size hss
                (remaining_sol - cost) (total_tokens + step) (supply + step)
            else .error .MathematicalOverflow
          else .error .MathematicalOverflow
      else .error .MathematicalOverflow
  else .ok (total_tokens, supply)
termination_by max_supply - supply
decreasing_by
  have h1 : 0 < min step_size (max_supply - supply) :=
    lt_min hss (Nat.sub_pos_of_lt hloop.2)
  omega

/-- `SigmoidCurve::calculate_buy`: numerical stepping via `buy_step_loop`. -/
def SigmoidCurve.calculate_buy (c : SigmoidCurve) (sol_amount current_supply : ℕ) :
    CResult CurveCalculation :=
  if sol_amount = 0 then .error .InvalidAmount
  else if c.max_supply ≤ current_supply then .error .InvalidInitialSupply
  else andThen (c.get_current_price current_supply) fun current_price =>
    andThen (buy_step_loop c.get_current_price c.max_supply
        (max (current_supply / 100) 1000) (lt_of_lt_of_le (by norm_num) (le_max_right _ _))
        sol_amount 0 current_supply) fun (total_tokens, _) =>
      if total_tokens = 0 then .error .InvalidAmount
      else if current_supply + total_tokens ≤ U64MAX then
        andThen (c.get_current_price (current_supply + total_tokens)) fun new_price =>
          andThen (calculate_price_impact current_price new_price) fun price_impact =>
            .ok ⟨total_tokens, sol_amount, current_supply + total_tokens,
              new_price, price_impact⟩
      else .error .MathematicalOverflow

/-- `SigmoidCurve::calculate_sell`: average-price payout, `u128` product
cast `as u64` (the `% 2^64`). -/
def SigmoidCurve.calculate_sell (c : SigmoidCurve) (token_amount current_supply : ℕ) :
    CResult CurveCalculation :=
  if token_amount = 0 then .error .InvalidAmount
  else if current_supply < token_amount then .error .InsufficientBalance
  else
    let new_supply := current_supply - token_amount
    andThen (c.get_current_price current_supply) fun current_price =>
      andThen (c.get_current_price new_supply) fun new_price =>
        if current_price + new_price ≤ U64MAX then
          let average_price := (current_price + new_price) / 2
          if token_amount * average_price ≤ U128MAX then
            andThen (calculate_price_impact current_price new_price) fun price_impact =>
              .ok ⟨token_amount, token_amount * average_price % 2 ^ 64,
                new_supply, new_price, price_impact⟩
          else .error .MathematicalOverflow
        else .error .MathematicalOverflow

/-- Logarithmic curve `price = base_price + scale * ln(supply + 1)`. -/
structure LogarithmicCurve where
  base_price : ℕ
  scale : ℕ
  max_supply : ℕ
  deriving DecidableEq, Repr

/-- The range-reduction loop of `ln_approximation`:
`while value >= 2 * PRECISION { value /= 2; power_of_two += 1 }`. -/
def ln_reduce (value power_of_two : ℕ) : ℕ × ℕ :=
  if 2 * PRECISION ≤ value then ln_reduce (value / 2) (power_of_two + 1)
  else (value, power_of_two)
termination_by value
decreasing_by
  have : 0 < value := by
    have : 0 < 2 * PRECISION := by norm_num [PRECISION]
    omega
  omega

/-- `LogarithmicCurve::ln_approximation(x)` under release (wrapping) `u128`
semantics: the subtraction `value - PRECISION` and the following
multiplication by `PRECISION` wrap modulo `2^128` when `value < PRECISION`
(i.e. whenever `x + 1 < 10^9`), and the intermediate is then reinterpreted
`as i128`; the Taylor part uses saturating `i128` multiplication; the final
`as u64` is the `% 2^64`.  All divisions below act on non-negative values,
where Lean and Rust integer division agree. -/
def ln_approximation (x : ℕ) : ℕ :=
  if x = 0 then 0
  else
    let vp := ln_reduce (x + 1) 0
    let value := vp.1
    let power_of_two := vp.2
    let x_normalized :=
      toI128 ((value + 2 ^ 128 - PRECISION) % 2 ^ 128 * PRECISION % 2 ^ 128 / PRECISION)
    let series : ℤ :=
      if 0 < x_normalized then
        let x2 := satMulI128 x_normalized x_normalized / (PRECISION : ℤ)
        let x3 := satMulI128 x2 x_normalized / (PRECISION : ℤ)
        let x4 := satMulI128 x3 x_normalized / (PRECISION : ℤ)
        x_normalized - x2 / 2 + x3 / 3 - x4 / 4
      else 0
    Int.toNat (max (series + 693147 * (power_of_two : ℤ)) 0) % 2 ^ 64

/-- `LogarithmicCurve::get_current_price`. -/
def LogarithmicCurve.get_current_price (c : LogarithmicCurve) (current_supply : ℕ) :
    CResult ℕ :=
  let ln_value := ln_approximation current_supply
  if c.scale * ln_value ≤ U128MAX then
    let price_addition := c.scale * ln_value / PRECISION % 2 ^ 64
    if c.base_price + price_addition ≤ U64MAX then
      .ok (max (c.base_price + price_addition) MIN_PRICE)
    else .error .MathematicalOverflow
  else .error .MathematicalOverflow

/-- `LogarithmicCurve::get_market_cap`. -/
def LogarithmicCurve.get_market_cap (c : LogarithmicCurve) (current_supply : ℕ) : CResult ℕ :=
  andThen (c.get_current_price current_supply) fun price =>
    if current_supply * price ≤ U64MAX then .ok (current_supply * price)
    else .error .MathematicalOverflow

/-- `LogarithmicCurve::calculate_buy`: same stepping loop as Sigmoid. -/
def LogarithmicCurve.calculate_buy (c : LogarithmicCurve) (sol_amount current_supply : ℕ) :
    CResult CurveCalculation :=
  if sol_amount = 0 then .error .InvalidAmount
  else if c.max_supply ≤ current_supply then .error .InvalidInitialSupply
  else andThen (c.get_current_price current_supply) fun current_price =>
    andThen (buy_step_loop c.get_current_price c.max_supply
        (max (current_supply / 100) 1000) (lt_of_lt_of_le (by norm_num) (le_max_right _ _))
        sol_amount 0 current_supply) fun (total_tokens, _) =>
      if total_tokens = 0 then .error .InvalidAmount
      else if current_supply + total_tokens ≤ U64MAX then
        andThen (c.get_current_price (current_supply + total_tokens)) fun new_price =>
          andThen (calculate_price_impact current_price new_price) fun price_impact =>
            .ok ⟨total_tokens, sol_amount, current_supply + total_tokens,
              new_price, price_impact⟩
      else .error .MathematicalOverflow

/-- `LogarithmicCurve::calculate_sell`: identical shape to the Sigmoid sell. -/
def LogarithmicCurve.calculate_sell (c : LogarithmicCurve) (token_amount current_supply : ℕ) :
    CResult CurveCalculation :=
  if token_amount = 0 then .error .InvalidAmount
  else if current_supply < token_amount then .error .InsufficientBalance
  else
    let new_supply := current_supply - token_amount
    andThen (c.get_current_price current_supply) fun current_price =>
      andThen (c.get_current_price new_supply) fun new_price =>
        if current_price + new_price ≤ U64MAX then
          let average_price := (current_price + new_price) / 2
          if token_amount * average_price ≤ U128MAX then
            andThen (calculate_price_impact current_price new_price) fun price_impact =>
              .ok ⟨token_amount, token_amount * average_price % 2 ^ 64,
                new_supply, new_price, price_impact⟩
          else .error .MathematicalOverflow
        else .error .MathematicalOverflow

/-- The five curve variants dispatched by `create_bonding_curve` /
`calculate_sell_tokens` (at the integer-parameter level; the
floating-point parameter conversion in the factory is outside this model). -/
inductive CurveVariant where
  | linear (c : LinearCurve)
  | expo (c : ExponentialCurve)
  | logc (c : LogarithmicCurve)
  | sigm (c : SigmoidCurve)
  | cprod (c : ConstantProductCurve)
  deriving DecidableEq

/-- Dispatch of `calculate_sell` over the variant. -/
def CurveVariant.calculate_sell (v : CurveVariant) (token_amount current_supply : ℕ) :
    CResult CurveCalculation :=
  match v with
  | .linear c => c.calculate_sell token_amount current_supply
  | .expo c => c.calculate_sell token_amount current_supply
  | .logc c => c.calculate_sell token_amount current_supply
  | .sigm c => c.calculate_sell token_amount current_supply
  | .cprod c => c.calculate_sell token_amount current_supply

/-- Mutable token ledger fields touched by `update_token_info_after_sell`
(`TokenInfo` in `state.rs`, restricted to those fields). -/
structure TokenInfo where
  current_supply : ℕ
  circulating_supply : ℕ
  total_volume_sol : ℕ
  total_trades : ℕ
  last_trade_at : ℤ
  deriving DecidableEq, Repr

/-- Read-only context of one `sell_tokens` call: platform configuration,
user profile and account balances (accounts in `SellTokens`). -/
structure SellCtx where
  max_slippage_bps : ℕ
  cooldown_period_seconds : ℤ
  rate_limit_per_minute : ℕ
  seller_token_balance : ℕ
  vault_lamports : ℕ
  fee_rate : ℕ
  whale_threshold_sol : ℕ
  whale_tax_bps : ℕ
  user_total_volume_sol : ℕ
  user_last_trade_timestamp : ℤ
  user_trades_last_minute : ℕ
  now : ℤ
  deriving DecidableEq, Repr

/-- `validate_sell_params`. -/
def validate_sell_params (token_amount slippage_tolerance : ℕ) (ctx : SellCtx) :
    CResult Unit :=
  if token_amount = 0 then .error .InvalidAmount
  else if ctx.max_slippage_bps < slippage_tolerance then .error .InvalidSlippageTolerance
  else .ok ()

/-- `check_rate_limiting`. -/
def check_rate_limiting (ctx : SellCtx) : CResult Unit :=
  if ctx.now - ctx.user_last_trade_timestamp < ctx.cooldown_period_seconds then
    .error .TradeCooldownActive
  else if ctx.rate_limit_per_minute ≤ ctx.user_trades_last_minute then
    .error .RateLimitExceeded
  else .ok ()

/-- `calculate_platform_fee`: `amount * fee_rate / 10000` in `u128`, `as u64`. -/
def calculate_platform_fee (amount fee_rate : ℕ) : CResult ℕ :=
  if amount * fee_rate ≤ U128MAX then .ok (amount * fee_rate / 10000 % 2 ^ 64)
  else .error .MathOverflow

/-- `calculate_whale_tax`. -/
def calculate_whale_tax (amount : ℕ) (ctx : SellCtx) : CResult ℕ :=
  if ctx.whale_threshold_sol ≤ amount ∨ ctx.whale_threshold_sol ≤ ctx.user_total_volume_sol then
    if amount * ctx.whale_tax_bps ≤ U128MAX then .ok (amount * ctx.whale_tax_bps / 10000 % 2 ^ 64)
    else .error .MathOverflow
  else .ok 0

/-- `update_token_info_after_sell`: the only mutation of the token ledger on
the sell path. -/
def update_token_info_after_sell (info : TokenInfo) (calcr : CurveCalculation)
    (sol_amount : ℕ) (now : ℤ) : CResult TokenInfo :=
  if calcr.token_amount ≤ info.circulating_supply then
    if info.total_volume_sol + sol_amount ≤ U64MAX then
      if info.total_trades + 1 ≤ U64MAX then
        .ok ⟨calcr.new_supply, info.circulating_supply - calcr.token_amount,
          info.total_volume_sol + sol_amount, info.total_trades + 1, now⟩
      else .error .MathOverflow
    else .error .MathOverflow
  else .error .MathOverflow

/-- The `sell_tokens` instruction, restricted to the token-ledger state:
validation, rate-limit check, balance check, curve calculation, slippage and
liquidity checks, fee computation, then the ledger update.  An `error`
corresponds to an aborted (fully rolled-back) transaction; the lamport and
token transfers and the user-profile/platform-stats counters live outside
`TokenInfo` and are not tracked. -/
def sell_tokens (v : CurveVariant) (ctx : SellCtx) (info : TokenInfo)
    (token_amount min_sol_out slippage_tolerance : ℕ) : CResult TokenInfo :=
  andThen (validate_sell_params token_amount slippage_tolerance ctx) fun _ =>
    andThen (check_rate_limiting ctx) fun _ =>
      if ctx.seller_token_balance < token_amount then .error .InsufficientBalance
      else andThen (v.calculate_sell token_amount info.current_supply) fun calcr =>
        if calcr.sol_amount < min_sol_out then .error .SlippageExceeded
        else if slippage_tolerance < calcr.price_impact then .error .SlippageExceeded
        else if ctx.vault_lamports < calcr.sol_amount then .error .InsufficientLiquidity
        else andThen (calculate_platform_fee calcr.sol_amount ctx.fee_rate) fun platform_fee =>
          andThen (calculate_whale_tax calcr.sol_amount ctx) fun whale_tax =>
            if platform_fee + whale_tax ≤ U64MAX then
              if calcr.sol_amount < platform_fee + whale_tax then .error .InsufficientFunds
              else update_token_info_after_sell info calcr calcr.sol_amount ctx.now
            else .error .MathOverflow

/-- Observable token-ledger state after a `sell_tokens` call: on error the
Solana runtime rolls the whole transaction back, so the pre-call state
persists. -/
def sell_tokens_final_state (v : CurveVariant) (ctx : SellCtx) (info : TokenInfo)
    (token_amount min_sol_out slippage_tolerance : ℕ) : TokenInfo :=
  match sell_tokens v ctx info token_amount min_sol_out slippage_tolerance with
  | .ok info2 => info2
  | .error _ => info

/-- AM-GM step of the Newton iteration: each computed iterate
`(x + n/x)/2` stays at or above `⌊√n⌋`. -/
theorem newton_ge (n x : ℕ) (hx : 1 ≤ x) : Nat.sqrt n ≤ (x + n / x) / 2 := by
  rcases le_or_lt (2 * Nat.sqrt n) x with h | h
  · calc Nat.sqrt n = 2 * Nat.sqrt n / 2 := by omega
      _ ≤ (x + n / x) / 2 := Nat.div_le_div_right (le_trans h (Nat.le_add_right _ _))
  · have key : 2 * Nat.sqrt n * x ≤ Nat.sqrt n * Nat.sqrt n + x * x := by
      zify
      nlinarith [sq_nonneg ((Nat.sqrt n : ℤ) - (x : ℤ))]
    have hsx : (2 * Nat.sqrt n - x) * x ≤ n := by
      refine le_trans ?_ (Nat.sqrt_le n)
      rw [Nat.sub_mul]
      exact Nat.sub_le_of_le_add (by linarith [key])
    have h2 : 2 * Nat.sqrt n - x ≤ n / x := (Nat.le_div_iff_mul_le hx).mpr hsx
    have h3 : 2 * Nat.sqrt n ≤ x + n / x := by omega
    omega

/-- Strict-descent step: while the iterate exceeds `⌊√n⌋`, the next
iterate strictly decreases. -/
theorem newton_lt (n x : ℕ) (hx : Nat.sqrt n < x) : (x + n / x) / 2 < x := by
  have hx0 : 0 < x := lt_of_le_of_lt (Nat.zero_le _) hx
  have h1 : n < x * x := Nat.sqrt_lt.mp hx
  have h2 : n / x < x := (Nat.div_lt_iff_lt_mul hx0).mpr h1
  omega

/-- The Newton loop, entered at or above `⌊√n⌋` with the computed first
iterate and a bound at or above `x`, returns exactly `⌊√n⌋`. -/
theorem isqrt_go_newton (n : ℕ) (hn : 1 ≤ n) :
    ∀ bound x, x ≤ bound → Nat.sqrt n ≤ x → 1 ≤ x →
      isqrt_go n bound x ((x + n / x) / 2) = some (Nat.sqrt n) := by
  intro bound
  induction bound with
  | zero => intro x hb hsx hx1; omega
  | succ bound ih =>
    intro x hb hsx hx1
    have hs1 : 1 ≤ Nat.sqrt n := Nat.sqrt_pos.mpr hn
    have hy : Nat.sqrt n ≤ (x + n / x) / 2 := newton_ge n x hx1
    rcases eq_or_lt_of_le hsx with heq | hlt
    · have hstop : ¬ ((x + n / x) / 2 < x) := by omega
      rw [isqrt_go, if_neg hstop, heq]
    · have hylt : (x + n / x) / 2 < x := newton_lt n x hlt
      rw [isqrt_go, if_pos hylt, if_neg (by omega : ¬ (x + n / x) / 2 = 0)]
      exact ih _ (by omega) hy (by omega)

/-- For every `n` below the single wrapping input, `isqrt` returns the
floor square root. -/
theorem isqrt_eq_sqrt (n : ℕ) (h : n ≤ 2 ^ 128 - 2) : isqrt n = some (Nat.sqrt n) := by
  rcases Nat.eq_zero_or_pos n with h0 | h0
  · subst h0; simp [isqrt]
  · rw [isqrt, if_neg (by omega)]
    have hmod : (n + 1) % 2 ^ 128 = n + 1 := Nat.mod_eq_of_lt (by omega)
    have hdiv : n / n = 1 := Nat.div_self h0
    have hrw : (n + 1) % 2 ^ 128 / 2 = (n + n / n) / 2 := by rw [hmod, hdiv]
    rw [hrw]
    exact isqrt_go_newton n h0 n n le_rfl (Nat.sqrt_le_self n) h0

/-- Pin down `Nat.sqrt` on concrete values from the two-sided bound. -/
theorem sqrt_eq_of_bounds (r n : ℕ) (h1 : r * r ≤ n) (h2 : n < (r + 1) * (r + 1)) :
    Nat.sqrt n = r :=
  (Nat.eq_sqrt.mpr ⟨h1, h2⟩).symm

/-- `isqrt` at the single wrapping input `2^128 - 1`: the entry increment
wraps to `0`, and the first loop step divides by zero (a panic, `none`). -/
theorem isqrt_umax : isqrt (2 ^ 128 - 1) = none := by
  rw [isqrt, if_neg (by norm_num)]
  have h1 : (2 ^ 128 - 1 + 1) % 2 ^ 128 = 0 := by norm_num
  rw [h1]
  have h2 : 2 ^ 128 - 1 = 2 ^ 128 - 2 + 1 := by norm_num
  rw [h2, isqrt_go, if_pos (by norm_num), if_pos rfl]

/-- Claim C1 (code_bug): price monotonicity fails for `ExponentialCurve`
across the internal branch boundary `exponent = 1000`.  With valid
parameters `base_price = 10^9`, `growth_factor = 10^9`,
`max_supply = 10^15`, supplies `999 < 1000 ≤ max_supply` give
`price(999) = 1000499999 > price(1000) = 1000002000`: the quadratic Taylor
form is abandoned for `PRECISION + 2·exponent` exactly where the quadratic
term `exponent²/2 ≈ 499000` dwarfs `2·exponent = 2000`. -/
theorem C1_exponential_price_drop :
    ExponentialCurve.get_current_price ⟨1000000000, 1000000000, 1000000000000000⟩ 999 =
        .ok 1000499999 ∧
      ExponentialCurve.get_current_price ⟨1000000000, 1000000000, 1000000000000000⟩ 1000 =
        .ok 1000002000 ∧
      (1000002000 : ℕ) < 1000499999 :=
  ⟨rfl, rfl, by norm_num⟩

/-- Claim C2 (code_bug): the no-free-arbitrage property fails for
`ExponentialCurve`.  With `base_price = 1000`, `growth_factor = 1`,
`max_supply = 10^15`, buying with `A = 1000` lamports at supply `0` yields
`10^9` tokens (the buy path computes `sol·PRECISION/average_price`),
and immediately selling those tokens back at the new supply succeeds and
returns `A' = 10^12` lamports (the sell path computes
`tokens·average_price` with no `PRECISION` division), so `A' > A` by a
factor of `10^9`. -/
theorem C2_exponential_round_trip_inflates :
    ExponentialCurve.calculate_buy ⟨1000, 1, 1000000000000000⟩ 1000 0 =
        .ok ⟨1000000000, 1000, 1000000000, 1000, 0⟩ ∧
      ExponentialCurve.calculate_sell ⟨1000, 1, 1000000000000000⟩ 1000000000 1000000000 =
        .ok ⟨1000000000, 1000000000000, 0, 1000, 0⟩ ∧
      (1000 : ℕ) < 1000000000000 :=
  ⟨rfl, rfl, by norm_num⟩

set_option maxRecDepth 10000 in
/-- Claim C3 (code_bug): the concrete linear buy scenario
(`initial_price = 1000`, `slope = 10`, `current_supply = 1000`,
`sol_amount = 10000`) succeeds but returns `token_amount = 0`, not `> 0`:
`⌊√121200000⌋ = 11009` gives `Δ = (11009 - 1000 - 10·1000)/10 = 0`.
`new_supply = 1000 + 0` and `price_per_token = 11000 > 1000` do hold. -/
theorem C3_linear_buy_zero_tokens :
    LinearCurve.calculate_buy ⟨1000, 10, 1000000⟩ 10000 1000 =
        .ok ⟨0, 10000, 1000, 11000, 0⟩ ∧
      ¬ (0 : ℕ) > 0 := by
  exact ⟨rfl, by norm_num⟩

/-- Claim C4 counterexample: with `old_price = 1`, `new_price = 8`, the
spec formula gives `min(10000, 7·10000/1) = 10000`, but the code truncates
the quotient `as u16` before the `min` and returns
`70000 mod 65536 = 4464`. -/
theorem C4_counterexample :
    calculate_price_impact 1 8 = .ok 4464 ∧
      min 10000 (Nat.dist 1 8 * 10000 / 1) = 10000 ∧ (4464 : ℕ) ≠ 10000 :=
  ⟨rfl, by rw [Nat.dist_eq_sub_of_le (by norm_num)]; norm_num, by norm_num⟩

/-- Claim C4 (amended): the computed price impact equals
`min(10000, (|new - old| * 10000 / old) mod 2^16)` whenever
`|new - old| * 10000` fits in `u64`, equals `10000` when `old = 0`, and is
a `MathematicalOverflow` error otherwise — i.e. the spec formula with the
`u16` cast applied before the `min`. -/
theorem C4_price_impact_formula (old_price new_price : ℕ) :
    calculate_price_impact old_price new_price =
      (if old_price = 0 then .ok 10000
       else if Nat.dist old_price new_price * 10000 ≤ U64MAX then
         .ok (min (Nat.dist old_price new_price * 10000 / old_price % 65536) 10000)
       else .error .MathematicalOverflow) := by
  unfold calculate_price_impact
  rcases eq_or_ne old_price 0 with h0 | h0
  · simp [h0]
  · rw [if_neg h0, if_neg h0]
    have hdist : (if old_price < new_price then new_price - old_price
        else old_price - new_price) = Nat.dist old_price new_price := by
      rcases lt_or_le old_price new_price with h | h
      · rw [if_pos h, Nat.dist_eq_sub_of_le (le_of_lt h)]
      · rw [if_neg (by omega), Nat.dist_eq_sub_of_le_right h]
    rw [hdist]

/-- Claim C9 (amended): for every `n ≤ 2^128 - 2` the Newton loop in
`isqrt` terminates and returns the floor square root `r` with
`r² ≤ n < (r+1)²`.  (At `n = 2^128 - 1` the entry increment `n + 1`
overflows `u128` — see the counterexample.) -/
theorem C9_isqrt_floor_sqrt (n : ℕ) (h : n ≤ 2 ^ 128 - 2) :
    ∃ r, isqrt n = some r ∧ r * r ≤ n ∧ n < (r + 1) * (r + 1) :=
  ⟨Nat.sqrt n, isqrt_eq_sqrt n h, Nat.sqrt_le n, Nat.lt_succ_sqrt n⟩

/-- Witness for C9 at `n = 10`: the returned root is `3`. -/
theorem C9_witness :
    ∃ r, isqrt 10 = some r ∧ r * r ≤ 10 ∧ 10 < (r + 1) * (r + 1) :=
  C9_isqrt_floor_sqrt 10 (by norm_num)

/-- Claim C9 counterexample: at `n = 2^128 - 1` (a legal `u128`), the
computation aborts — the wrapped `n + 1` makes the first iterate `0` and
the loop divides by zero — so no value satisfying the floor-square-root
contract is returned. -/
theorem C9_counterexample :
    ¬ ∃ r, isqrt (2 ^ 128 - 1) = some r ∧ r * r ≤ 2 ^ 128 - 1 ∧
        2 ^ 128 - 1 < (r + 1) * (r + 1) := by
  rintro ⟨r, hr, -, -⟩
  rw [isqrt_umax] at hr
  exact Option.noConfusion hr

/-- `andThen` on a concrete error. -/
theorem andThen_error {beta alpha : Type} (e : CurveErr) (f : beta → CResult alpha) :
    andThen (.error e) f = .error e := rfl

/-- `andThen` on a concrete success. -/
theorem andThen_okv {beta alpha : Type} (v : beta) (f : beta → CResult alpha) :
    andThen (.ok v) f = f v := rfl

/-- Inverting an error-guarding `if`: `if c then error else x` succeeded. -/
theorem guard_err {alpha : Type} {c : Prop} [Decidable c] {e : CurveErr}
    {x : CResult alpha} {r : alpha}
    (h : (if c then Except.error e else x) = .ok r) : ¬ c ∧ x = .ok r := by
  by_cases hc : c
  · rw [if_pos hc] at h; exact absurd h (by simp)
  · rw [if_neg hc] at h; exact ⟨hc, h⟩

/-- Inverting a bound-checking `if`: `if c then x else error` succeeded. -/
theorem guard_ok {alpha : Type} {c : Prop} [Decidable c] {e : CurveErr}
    {x : CResult alpha} {r : alpha}
    (h : (if c then x else Except.error e) = .ok r) : c ∧ x = .ok r := by
  by_cases hc : c
  · rw [if_pos hc] at h; exact ⟨hc, h⟩
  · rw [if_neg hc] at h; exact absurd h (by simp)

/-- Inverting a successful `andThen` (the Rust `?`). -/
theorem andThen_ok {beta alpha : Type} {x : CResult beta} {f : beta → CResult alpha}
    {r : alpha} (h : andThen x f = .ok r) : ∃ v, x = .ok v ∧ f v = .ok r := by
  cases x with
  | error e => exact absurd h (by simp [andThen])
  | ok v => exact ⟨v, rfl, h⟩

/-- Inverting a successful `optStep`. -/
theorem optStep_ok {alpha : Type} {x : Option ℕ} {f : ℕ → CResult alpha} {r : alpha}
    (h : optStep x f = .ok r) : ∃ v, x = some v ∧ f v = .ok r := by
  cases x with
  | none => exact absurd h (by simp [optStep])
  | some v => exact ⟨v, rfl, h⟩

/-- With `u64`-sized reserves, the saturating `get_k` is the exact product. -/
theorem get_k_eq (c : ConstantProductCurve) (hx : c.sol_reserve ≤ U64MAX)
    (hy : c.token_reserve ≤ U64MAX) : c.get_k = c.sol_reserve * c.token_reserve := by
  unfold ConstantProductCurve.get_k
  rw [min_eq_left]
  calc c.sol_reserve * c.token_reserve ≤ U64MAX * U64MAX := Nat.mul_le_mul hx hy
    _ ≤ U128MAX := by norm_num [U64MAX, U128MAX]

/-- Inversion of a successful constant-product buy. -/
theorem cp_buy_inv (c : ConstantProductCurve) (sol s : ℕ) (r : CurveCalculation)
    (h : c.calculate_buy sol s = .ok r) :
    0 < sol ∧
      c.get_k / (c.sol_reserve + sol) ≤ c.token_reserve ∧
      r.token_amount = c.token_reserve - c.get_k / (c.sol_reserve + sol) ∧
      0 < r.token_amount ∧
      r.new_supply = c.get_k / (c.sol_reserve + sol) % 2 ^ 64 := by
  simp only [ConstantProductCurve.calculate_buy] at h
  obtain ⟨h1, h⟩ := guard_err h
  obtain ⟨h2, h⟩ := guard_ok h
  obtain ⟨h3, h⟩ := guard_err h
  obtain ⟨h4, h⟩ := guard_err h
  obtain ⟨h5, h⟩ := guard_err h
  obtain ⟨h6, h⟩ := guard_err h
  obtain ⟨op, hop, h⟩ := andThen_ok h
  obtain ⟨h7, h⟩ := guard_ok h
  obtain ⟨h8, h⟩ := guard_err h
  obtain ⟨pi, hpi, h⟩ := andThen_ok h
  injection h with h
  subst h
  exact ⟨by omega, by omega, rfl, Nat.pos_of_ne_zero h5, rfl⟩

/-- Inversion of a successful constant-product sell. -/
theorem cp_sell_inv (c : ConstantProductCurve) (t s : ℕ) (r : CurveCalculation)
    (h : c.calculate_sell t s = .ok r) :
    0 < t ∧ t < c.token_reserve ∧
      c.get_k / (c.token_reserve + t) ≤ c.sol_reserve ∧
      r.sol_amount = c.sol_reserve - c.get_k / (c.token_reserve + t) ∧
      0 < r.sol_amount ∧
      r.new_supply = (c.token_reserve + t) % 2 ^ 64 := by
  simp only [ConstantProductCurve.calculate_sell] at h
  obtain ⟨h1, h⟩ := guard_err h
  obtain ⟨h2, h⟩ := guard_err h
  obtain ⟨h3, h⟩ := guard_ok h
  obtain ⟨h4, h⟩ := guard_err h
  obtain ⟨h5, h⟩ := guard_err h
  obtain ⟨h6, h⟩ := guard_err h
  obtain ⟨h7, h⟩ := guard_err h
  obtain ⟨op, hop, h⟩ := andThen_ok h
  obtain ⟨h8, h⟩ := guard_ok h
  obtain ⟨pi, hpi, h⟩ := andThen_ok h
  injection h with h
  subst h
  exact ⟨by omega, by omega, by omega, rfl, Nat.pos_of_ne_zero h6, rfl⟩

/-- Claim C5 (confirmed): constant-product invariant conservation.  After a
successful buy the post-trade product
`(sol_reserve + sol) * (token_reserve - token_amount)` never exceeds the
pre-trade `k = sol_reserve * token_reserve` and falls short of it by less
than one unit of the division granularity (the updated sol reserve);
symmetrically for a successful sell, with granularity the updated token
reserve.  This is the rounding tolerance of the floor division
`k / new_reserve`. -/
theorem C5_cp_k_conserved :
    (∀ (c : ConstantProductCurve) (sol s : ℕ) (r : CurveCalculation),
        0 < c.sol_reserve → 0 < c.token_reserve →
        c.sol_reserve ≤ U64MAX → c.token_reserve ≤ U64MAX →
        c.calculate_buy sol s = .ok r →
        (c.sol_reserve + sol) * (c.token_reserve - r.token_amount) ≤
            c.sol_reserve * c.token_reserve ∧
          c.sol_reserve * c.token_reserve -
              (c.sol_reserve + sol) * (c.token_reserve - r.token_amount) <
            c.sol_reserve + sol) ∧
    (∀ (c : ConstantProductCurve) (t s : ℕ) (r : CurveCalculation),
        0 < c.sol_reserve → 0 < c.token_reserve →
        c.sol_reserve ≤ U64MAX → c.token_reserve ≤ U64MAX →
        c.calculate_sell t s = .ok r →
        (c.sol_reserve - r.sol_amount) * (c.token_reserve + t) ≤
            c.sol_reserve * c.token_reserve ∧
          c.sol_reserve * c.token_reserve -
              (c.sol_reserve - r.sol_amount) * (c.token_reserve + t) <
            c.token_reserve + t) := by
  constructor
  · intro c sol s r hx hy hxm hym h
    obtain ⟨hsol, hle, hta, hpos, -⟩ := cp_buy_inv c sol s r h
    have hk := get_k_eq c hxm hym
    have hdm := Nat.div_add_mod c.get_k (c.sol_reserve + sol)
    have hmlt : c.get_k % (c.sol_reserve + sol) < c.sol_reserve + sol :=
      Nat.mod_lt _ (by omega)
    rw [← hk]
    generalize hq : c.get_k / (c.sol_reserve + sol) = q at hle hta hdm
    generalize hm : c.get_k % (c.sol_reserve + sol) = m at hdm hmlt
    have hsub : c.token_reserve - r.token_amount = q := by omega
    rw [hsub]
    generalize hP : (c.sol_reserve + sol) * q = P at hdm ⊢
    omega
  · intro c t s r hx hy hxm hym h
    obtain ⟨ht, htr, hle, hsa, hpos, -⟩ := cp_sell_inv c t s r h
    have hk := get_k_eq c hxm hym
    have hdm := Nat.div_add_mod c.get_k (c.token_reserve + t)
    have hmlt : c.get_k % (c.token_reserve + t) < c.token_reserve + t :=
      Nat.mod_lt _ (by omega)
    rw [← hk]
    generalize hq : c.get_k / (c.token_reserve + t) = q at hle hsa hdm
    generalize hm : c.get_k % (c.token_reserve + t) = m at hdm hmlt
    have hsub : c.sol_reserve - r.sol_amount = q := by omega
    rw [hsub, mul_comm q (c.token_reserve + t)]
    generalize hP : (c.token_reserve + t) * q = P at hdm ⊢
    omega

/-- Witness for C5: pool `(10^9, 10^9)`, buy of `10^8` lamports. -/
theorem C5_witness :
    (1000000000 + 100000000) * (1000000000 - 90909091) ≤ 1000000000 * 1000000000 ∧
      1000000000 * 1000000000 - (1000000000 + 100000000) * (1000000000 - 90909091) <
        1000000000 + 100000000 :=
  C5_cp_k_conserved.1 ⟨1000000000, 1000000000⟩ 100000000 0
    ⟨90909091, 100000000, 909090909, 1210000000, 2100⟩ (by norm_num) (by norm_num)
    (by norm_num [U64MAX]) (by norm_num [U64MAX]) rfl

/-- Claim C10 (confirmed): `new_supply` semantics differ between variants.
A successful `ConstantProductCurve::calculate_buy` returns as `new_supply`
the post-trade token reserve `⌊k / (sol_reserve + sol)⌋ =
token_reserve - token_amount`, which strictly decreases; every other
variant returns `new_supply = current_supply + token_amount`. -/
theorem C10_new_supply_semantics :
    (∀ (c : ConstantProductCurve) (sol s : ℕ) (r : CurveCalculation),
        c.sol_reserve ≤ U64MAX → c.token_reserve ≤ U64MAX →
        c.calculate_buy sol s = .ok r →
        r.new_supply = c.sol_reserve * c.token_reserve / (c.sol_reserve + sol) ∧
          r.new_supply = c.token_reserve - r.token_amount ∧
          r.new_supply < c.token_reserve) ∧
    (∀ (c : LinearCurve) (sol s : ℕ) (r : CurveCalculation),
        c.calculate_buy sol s = .ok r → r.new_supply = s + r.token_amount) ∧
    (∀ (c : ExponentialCurve) (sol s : ℕ) (r : CurveCalculation),
        c.calculate_buy sol s = .ok r → r.new_supply = s + r.token_amount) ∧
    (∀ (c : LogarithmicCurve) (sol s : ℕ) (r : CurveCalculation),
        c.calculate_buy sol s = .ok r → r.new_supply = s + r.token_amount) ∧
    (∀ (c : SigmoidCurve) (sol s : ℕ) (r : CurveCalculation),
        c.calculate_buy sol s = .ok r → r.new_supply = s + r.token_amount) := by
  refine ⟨?_, ?_, ?_, ?_, ?_⟩
  · intro c sol s r hxm hym h
    obtain ⟨hsol, hle, hta, hpos, hns⟩ := cp_buy_inv c sol s r h
    have hk := get_k_eq c hxm hym
    rw [hk] at hle hta hns
    generalize hq : c.sol_reserve * c.token_reserve / (c.sol_reserve + sol) = q
      at hle hta hns ⊢
    have hym2 : c.token_reserve ≤ 2 ^ 64 - 1 := by
      simpa [U64MAX] using hym
    rw [Nat.mod_eq_of_lt (by omega)] at hns
    exact ⟨hns, by omega, by omega⟩
  · intro c sol s r h
    simp only [LinearCurve.calculate_buy] at h
    obtain ⟨h1, h⟩ := guard_err h
    obtain ⟨h2, h⟩ := guard_err h
    obtain ⟨cp, hcp, h⟩ := andThen_ok h
    obtain ⟨g1, h⟩ := guard_ok h
    obtain ⟨g2, h⟩ := guard_ok h
    obtain ⟨g3, h⟩ := guard_ok h
    obtain ⟨g4, h⟩ := guard_ok h
    obtain ⟨g5, h⟩ := guard_ok h
    obtain ⟨g6, h⟩ := guard_ok h
    obtain ⟨g7, h⟩ := guard_ok h
    obtain ⟨g8, h⟩ := guard_ok h
    obtain ⟨g9, h⟩ := guard_ok h
    obtain ⟨g10, h⟩ := guard_ok h
    obtain ⟨g11, h⟩ := guard_ok h
    obtain ⟨sq, hsq, h⟩ := optStep_ok h
    obtain ⟨g12, h⟩ := guard_err h
    obtain ⟨g13, h⟩ := guard_ok h
    obtain ⟨g14, h⟩ := guard_err h
    obtain ⟨g15, h⟩ := guard_err h
    obtain ⟨g16, h⟩ := guard_ok h
    obtain ⟨g17, h⟩ := guard_err h
    obtain ⟨np, hnp, h⟩ := andThen_ok h
    obtain ⟨pi, hpi, h⟩ := andThen_ok h
    injection h with h; subst h; rfl
  · intro c sol s r h
    simp only [ExponentialCurve.calculate_buy] at h
    obtain ⟨h1, h⟩ := guard_err h
    obtain ⟨h2, h⟩ := guard_err h
    obtain ⟨cp, hcp, h⟩ := andThen_ok h
    obtain ⟨g1, h⟩ := guard_ok h
    obtain ⟨g2, h⟩ := guard_ok h
    obtain ⟨g3, h⟩ := guard_ok h
    obtain ⟨g4, h⟩ := guard_ok h
    obtain ⟨g5, h⟩ := guard_err h
    obtain ⟨g6, h⟩ := guard_ok h
    obtain ⟨g7, h⟩ := guard_err h
    obtain ⟨np, hnp, h⟩ := andThen_ok h
    obtain ⟨pi, hpi, h⟩ := andThen_ok h
    injection h with h; subst h; rfl
  · intro c sol s r h
    simp only [LogarithmicCurve.calculate_buy] at h
    obtain ⟨h1, h⟩ := guard_err h
    obtain ⟨h2, h⟩ := guard_err h
    obtain ⟨cp, hcp, h⟩ := andThen_ok h
    obtain ⟨tp, hloop, h⟩ := andThen_ok h
    obtain ⟨total_tokens, sup⟩ := tp
    obtain ⟨g1, h⟩ := guard_err h
    obtain ⟨g2, h⟩ := guard_ok h
    obtain ⟨np, hnp, h⟩ := andThen_ok h
    obtain ⟨pi, hpi, h⟩ := andThen_ok h
    injection h with h; subst h; rfl
  · intro c sol s r h
    simp only [SigmoidCurve.calculate_buy] at h
    obtain ⟨h1, h⟩ := guard_err h
    obtain ⟨h2, h⟩ := guard_err h
    obtain ⟨cp, hcp, h⟩ := andThen_ok h
    obtain ⟨tp, hloop, h⟩ := andThen_ok h
    obtain ⟨total_tokens, sup⟩ := tp
    obtain ⟨g1, h⟩ := guard_err h
    obtain ⟨g2, h⟩ := guard_ok h
    obtain ⟨np, hnp, h⟩ := andThen_ok h
    obtain ⟨pi, hpi, h⟩ := andThen_ok h
    injection h with h; subst h; rfl

/-- Witness for C10: the constant-product pool `(10^9, 10^9)` bought with
`10^8` lamports returns the decreased token reserve as `new_supply`. -/
theorem C10_witness :
    (909090909 : ℕ) = 1000000000 * 1000000000 / (1000000000 + 100000000) ∧
      (909090909 : ℕ) = 1000000000 - 90909091 ∧ (909090909 : ℕ) < 1000000000 :=
  C10_new_supply_semantics.1 ⟨1000000000, 1000000000⟩ 100000000 0
    ⟨90909091, 100000000, 909090909, 1210000000, 2100⟩ (by norm_num [U64MAX])
    (by norm_num [U64MAX]) rfl

/-- Claim C7 counterexample: `LinearCurve::get_current_price` enforces no
upper clamp.  With valid parameters `(1000, 10, 10^15)` and supply
`10^13 ≤ max_supply`, the price `10^14 + 1000` far exceeds the reference
graduation threshold `5·10^13` (the threshold is not even an input of the
price functions). -/
theorem C7_counterexample :
    LinearCurve.get_current_price ⟨1000, 10, 1000000000000000⟩ 10000000000000 =
        .ok 100000000001000 ∧
      (50000000000000 : ℕ) < 100000000001000 :=
  ⟨rfl, by norm_num⟩

/-- Claim C7 (amended): every variant enforces only the lower price bound
`MIN_PRICE = 1` (via `.max(MIN_PRICE)`); the Sigmoid variant alone also
clamps from above, into its own `[min_price, max_price]`.  No variant
bounds the price by the graduation threshold. -/
theorem C7_price_bounds :
    (∀ (c : LinearCurve) (s p : ℕ), c.get_current_price s = .ok p → MIN_PRICE ≤ p) ∧
    (∀ (c : ExponentialCurve) (s p : ℕ), c.get_current_price s = .ok p → MIN_PRICE ≤ p) ∧
    (∀ (c : LogarithmicCurve) (s p : ℕ), c.get_current_price s = .ok p → MIN_PRICE ≤ p) ∧
    (∀ (c : ConstantProductCurve) (s p : ℕ), c.get_current_price s = .ok p → MIN_PRICE ≤ p) ∧
    (∀ (c : SigmoidCurve) (s p : ℕ), c.min_price ≤ c.max_price →
        c.get_current_price s = .ok p → c.min_price ≤ p ∧ p ≤ c.max_price) := by
  refine ⟨?_, ?_, ?_, ?_, ?_⟩
  · intro c s p h
    simp only [LinearCurve.get_current_price] at h
    split_ifs at h <;> try exact Except.noConfusion h
    all_goals (injection h with h; subst h; exact le_max_right _ _)
  · intro c s p h
    simp only [ExponentialCurve.get_current_price] at h
    split_ifs at h <;> try exact Except.noConfusion h
    all_goals (injection h with h; subst h; exact le_max_right _ _)
  · intro c s p h
    simp only [LogarithmicCurve.get_current_price] at h
    split_ifs at h <;> try exact Except.noConfusion h
    all_goals (injection h with h; subst h; exact le_max_right _ _)
  · intro c s p h
    simp only [ConstantProductCurve.get_current_price] at h
    split_ifs at h <;> try exact Except.noConfusion h
    all_goals (injection h with h; subst h; exact le_max_right _ _)
  · intro c s p hmm h
    simp only [SigmoidCurve.get_current_price] at h
    split_ifs at h <;> try exact Except.noConfusion h
    all_goals injection h with h
    all_goals subst h
    all_goals exact ⟨le_max_left _ _, max_le hmm (min_le_right _ _)⟩

/-- Witness for C7: a Linear price and a Sigmoid price at concrete inputs. -/
theorem C7_witness :
    MIN_PRICE ≤ 1000 ∧
      ((1000 : ℕ) ≤ 500500 ∧ (500500 : ℕ) ≤ 1000000) :=
  ⟨C7_price_bounds.1 ⟨1000, 10, 1000000⟩ 0 1000 rfl,
    C7_price_bounds.2.2.2.2 ⟨1000, 1000000, 1000000, 500000, 1000000⟩ 500000 500500
      (by norm_num) rfl⟩

/-- Claim C8 counterexample: `get_market_cap` does not saturate.  For the
valid Linear curve `(10^18, 1, 10^15)` at supply `100`, the product
`100 · (10^18 + 100)` exceeds the `u64` ceiling and the call fails with
`MathematicalOverflow` instead of returning the ceiling. -/
theorem C8_counterexample :
    LinearCurve.get_market_cap ⟨1000000000000000000, 1, 1000000000000000⟩ 100 =
        .error .MathematicalOverflow ∧
      U64MAX < 100 * (1000000000000000000 + 100) :=
  ⟨rfl, by norm_num [U64MAX]⟩

/-- Claim C8 (amended): for every variant, `get_market_cap` returns
`current_price × supply` exactly when the product fits in `u64`, and
otherwise fails with `MathematicalOverflow` — it neither wraps nor
saturates.  The ConstantProduct variant uses `token_reserve` in place of
the (ignored) supply argument. -/
theorem C8_market_cap :
    (∀ (c : LinearCurve) (s p : ℕ), c.get_current_price s = .ok p →
        c.get_market_cap s =
          if s * p ≤ U64MAX then .ok (s * p) else .error .MathematicalOverflow) ∧
    (∀ (c : ExponentialCurve) (s p : ℕ), c.get_current_price s = .ok p →
        c.get_market_cap s =
          if s * p ≤ U64MAX then .ok (s * p) else .error .MathematicalOverflow) ∧
    (∀ (c : LogarithmicCurve) (s p : ℕ), c.get_current_price s = .ok p →
        c.get_market_cap s =
          if s * p ≤ U64MAX then .ok (s * p) else .error .MathematicalOverflow) ∧
    (∀ (c : SigmoidCurve) (s p : ℕ), c.get_current_price s = .ok p →
        c.get_market_cap s =
          if s * p ≤ U64MAX then .ok (s * p) else .error .MathematicalOverflow) ∧
    (∀ (c : ConstantProductCurve) (s p : ℕ), c.get_current_price 0 = .ok p →
        c.get_market_cap s =
          if c.token_reserve * p ≤ U64MAX then .ok (c.token_reserve * p)
          else .error .MathematicalOverflow) := by
  refine ⟨?_, ?_, ?_, ?_, ?_⟩
  · intro c s p h; unfold LinearCurve.get_market_cap; rw [h]; rfl
  · intro c s p h; unfold ExponentialCurve.get_market_cap; rw [h]; rfl
  · intro c s p h; unfold LogarithmicCurve.get_market_cap; rw [h]; rfl
  · intro c s p h; unfold SigmoidCurve.get_market_cap; rw [h]; rfl
  · intro c s p h; unfold ConstantProductCurve.get_market_cap; rw [h]; rfl

/-- Witness for C8: the Linear curve `(1000, 10, 10^6)` at supply `100`
has price `2000` and market cap `200000`. -/
theorem C8_witness :
    LinearCurve.get_market_cap ⟨1000, 10, 1000000⟩ 100 =
      if 100 * 2000 ≤ U64MAX then .ok (100 * 2000) else .error .MathematicalOverflow :=
  C8_market_cap.1 ⟨1000, 10, 1000000⟩ 100 2000 rfl

/-- Every non-constant-product sell rejects `token_amount > current_supply`
with `InsufficientBalance` (Linear). -/
theorem linear_sell_gt (c : LinearCurve) (t s : ℕ) (hts : s < t) :
    c.calculate_sell t s = .error .InsufficientBalance := by
  unfold LinearCurve.calculate_sell
  rw [if_neg (by omega), if_pos hts]

/-- As `linear_sell_gt`, for the Exponential variant. -/
theorem expo_sell_gt (c : ExponentialCurve) (t s : ℕ) (hts : s < t) :
    c.calculate_sell t s = .error .InsufficientBalance := by
  unfold ExponentialCurve.calculate_sell
  rw [if_neg (by omega), if_pos hts]

/-- As `linear_sell_gt`, for the Logarithmic variant. -/
theorem logc_sell_gt (c : LogarithmicCurve) (t s : ℕ) (hts : s < t) :
    c.calculate_sell t s = .error .InsufficientBalance := by
  unfold LogarithmicCurve.calculate_sell
  rw [if_neg (by omega), if_pos hts]

/-- As `linear_sell_gt`, for the Sigmoid variant. -/
theorem sigm_sell_gt (c : SigmoidCurve) (t s : ℕ) (hts : s < t) :
    c.calculate_sell t s = .error .InsufficientBalance := by
  unfold SigmoidCurve.calculate_sell
  rw [if_neg (by omega), if_pos hts]

/-- If the curve calculation errors, the whole `sell_tokens` call errors. -/
theorem sell_tokens_err_of_calc (v : CurveVariant) (ctx : SellCtx) (info : TokenInfo)
    (t mo st : ℕ)
    (hc : ∃ e, v.calculate_sell t info.current_supply = .error e) :
    ∃ e, sell_tokens v ctx info t mo st = .error e := by
  unfold sell_tokens
  rcases hval : validate_sell_params t st ctx with e1 | u1
  · exact ⟨e1, andThen_error e1 _⟩
  · rw [andThen_okv]
    rcases hrl : check_rate_limiting ctx with e2 | u2
    · exact ⟨e2, andThen_error e2 _⟩
    · rw [andThen_okv]
      by_cases hb : ctx.seller_token_balance < t
      · exact ⟨.InsufficientBalance, by rw [if_pos hb]⟩
      · obtain ⟨e, hce⟩ := hc
        rw [if_neg hb, hce]
        exact ⟨e, andThen_error e _⟩

/-- An erroring `sell_tokens` leaves the observable ledger unchanged. -/
theorem final_state_of_err (v : CurveVariant) (ctx : SellCtx) (info : TokenInfo)
    (t mo st : ℕ) (h : ∃ e, sell_tokens v ctx info t mo st = .error e) :
    sell_tokens_final_state v ctx info t mo st = info := by
  obtain ⟨e, h⟩ := h
  unfold sell_tokens_final_state
  rw [h]

/-- Claim C6 counterexample: `ConstantProductCurve::calculate_sell` does
not check the supply argument at all — selling `5` tokens with
`current_supply = 1` succeeds against the pool `(10^9, 10^12)`. -/
theorem C6_counterexample :
    ConstantProductCurve.calculate_sell ⟨1000000000, 1000000000000⟩ 5 1 =
        .ok ⟨5, 1, 1000000000005, 999999, 0⟩ ∧
      (1 : ℕ) < 5 :=
  ⟨rfl, by norm_num⟩

/-- Claim C6 (amended): for the Linear, Exponential, Logarithmic and
Sigmoid variants, `calculate_sell` with `token_amount > current_supply`
fails with `InsufficientBalance`; the ConstantProduct variant ignores the
supply argument entirely (its balance check is against `token_reserve`);
and a `sell_tokens` call on a non-constant-product curve whose amount
exceeds the recorded supply always errors, leaving the token ledger
unchanged. -/
theorem C6_sell_balance :
    (∀ (c : LinearCurve) (t s : ℕ), s < t →
        c.calculate_sell t s = .error .InsufficientBalance) ∧
    (∀ (c : ExponentialCurve) (t s : ℕ), s < t →
        c.calculate_sell t s = .error .InsufficientBalance) ∧
    (∀ (c : LogarithmicCurve) (t s : ℕ), s < t →
        c.calculate_sell t s = .error .InsufficientBalance) ∧
    (∀ (c : SigmoidCurve) (t s : ℕ), s < t →
        c.calculate_sell t s = .error .InsufficientBalance) ∧
    (∀ (c : ConstantProductCurve) (t s1 s2 : ℕ),
        c.calculate_sell t s1 = c.calculate_sell t s2) ∧
    (∀ (v : CurveVariant) (ctx : SellCtx) (info : TokenInfo) (t mo st : ℕ),
        (∀ cp, v ≠ .cprod cp) → info.current_supply < t →
        (∃ e, sell_tokens v ctx info t mo st = .error e) ∧
          sell_tokens_final_state v ctx info t mo st = info) := by
  refine ⟨linear_sell_gt, expo_sell_gt, logc_sell_gt, sigm_sell_gt,
    fun c t s1 s2 => rfl, ?_⟩
  intro v ctx info t mo st hncp hts
  have hc : ∃ e, v.calculate_sell t info.current_supply = .error e := by
    cases v with
    | linear c => exact ⟨_, linear_sell_gt c t _ hts⟩
    | expo c => exact ⟨_, expo_sell_gt c t _ hts⟩
    | logc c => exact ⟨_, logc_sell_gt c t _ hts⟩
    | sigm c => exact ⟨_, sigm_sell_gt c t _ hts⟩
    | cprod c => exact absurd rfl (hncp c)
  have herr := sell_tokens_err_of_calc v ctx info t mo st hc
  exact ⟨herr, final_state_of_err v ctx info t mo st herr⟩

/-- Witness for C6: a concrete rejected Linear sell of `5 > supply 1`
through the full pipeline. -/
theorem C6_witness :
    LinearCurve.calculate_sell ⟨1000, 10, 1000000⟩ 5 1 =
        .error .InsufficientBalance ∧
      (∃ e, sell_tokens (.linear ⟨1000, 10, 1000000⟩)
          ⟨10000, 0, 10, 100, 1000000000, 100, 1000000000, 100, 0, 0, 0, 100⟩
          ⟨1, 1, 0, 0, 0⟩ 5 0 0 = .error e) ∧
      sell_tokens_final_state (.linear ⟨1000, 10, 1000000⟩)
          ⟨10000, 0, 10, 100, 1000000000, 100, 1000000000, 100, 0, 0, 0, 100⟩
          ⟨1, 1, 0, 0, 0⟩ 5 0 0 = ⟨1, 1, 0, 0, 0⟩ := by
  refine ⟨C6_sell_balance.1 ⟨1000, 10, 1000000⟩ 5 1 (by norm_num), ?_⟩
  exact C6_sell_balance.2.2.2.2.2 (.linear ⟨1000, 10, 1000000⟩)
    ⟨10000, 0, 10, 100, 1000000000, 100, 1000000000, 100, 0, 0, 0, 100⟩
    ⟨1, 1, 0, 0, 0⟩ 5 0 0 (fun cp h => by cases h) (by norm_num)
